import Mathlib

/-!
# Subscription handlers (package `handlers`, file `handlers/subscription.go`)

A shallow embedding of the seven request handlers of the subscription service.
Each handler is a function from a request context and the running trace of a
request (store of the helper, helper calls made so far, responses written so
far) to the trace after the handler returns.  The collaborators the handlers
call but do not define (the helper behind `helpers.SubscriptionI`, the paging
reader of the base handler, `uuid.Parse`, `models.NewSubscription`) are
parameters, so a theorem about a handler holds for every behaviour of them.
Where a property is decided by the helper or the constructor rather than by the
handler, these are modelled from the specification and marked as such.
-/

namespace Covenant

/-- A Go `error` value that is not nil. -/
abbrev GoError := String

/-- The type `uuid.UUID` of pborman/uuid is a byte slice; `none` is the nil slice
that `uuid.Parse` returns for text that is no identifier. -/
abbrev UUID := Option (List Nat)

namespace models

/-- Lifecycle status of a subscription record. -/
inductive Status where
  | active
  | paused
  | deleted
deriving DecidableEq

/-- Modelled from the spec: the declaration of `models.Subscription` is not among
the sources; the handler only shows its field `ID` of type `uuid.UUID`.  The other
fields are those of the data model: user, vendor (roaster) and item references,
frequency, last fulfilment time (absent when never fulfilled), next due time and
status. -/
structure Subscription where
  ID : UUID
  UserID : UUID
  RoasterID : UUID
  ItemID : UUID
  Frequency : String
  LastFulfilledAt : Option Nat
  NextDueAt : Nat
  Status : Status
deriving DecidableEq

/-- The body of a `New` request: the four fields the handler reads from it. -/
structure RequestIdentifiers where
  UserID : UUID
  Frequency : String
  RoasterID : UUID
  ItemID : UUID
deriving DecidableEq

end models

/-- A value passed as `interface{}` to one of the response writers. -/
inductive Obj where
  | nil
  | err (e : GoError)
  | str (s : String)
  | ids (r : models.RequestIdentifiers)
  | sub (s : models.Subscription)
  | subs (l : List models.Subscription)
deriving DecidableEq

/-- The response a handler writes: one constructor per writer of the base
handler (`UserError`, `ServerError`, `Success`) with the arguments it was given. -/
inductive Response where
  | UserError (msg : String) (obj : Obj)
  | ServerError (err : GoError) (obj : Obj)
  | Success (data : Obj)
deriving DecidableEq

namespace helpers

/-- An operation of `helpers.SubscriptionI` together with its arguments. -/
inductive Call where
  | Insert (sub : models.Subscription)
  | GetByID (id : String)
  | GetAll (offset limit : Int)
  | GetByRoaster (roasterID : String) (offset limit : Int)
  | GetByUser (userID : String) (offset limit : Int)
  | Update (id : String) (sub : models.Subscription)
  | Delete (id : String)
deriving DecidableEq

/-- One helper invocation as the handler saw it: the operation and the error it
returned (`none` for nil). -/
structure CallRecord where
  call : Call
  err : Option GoError
deriving DecidableEq

/-- The helper interface `helpers.SubscriptionI` over a store of type `σ`: every
operation reads and may change the store and returns its Go results, the error
as `none` for nil.  A `*models.Subscription` result is `none` for the nil
pointer, a slice result is the list of its elements.  Records handed to the
helper are passed by value: the helper does not write through the pointer it is
given. -/
structure SubscriptionI (σ : Type) where
  Insert : models.Subscription → σ → Option GoError × σ
  GetByID : String → σ → (Option models.Subscription × Option GoError) × σ
  GetAll : Int → Int → σ → (List models.Subscription × Option GoError) × σ
  GetByRoaster : String → Int → Int → σ → (List models.Subscription × Option GoError) × σ
  GetByUser : String → Int → Int → σ → (List models.Subscription × Option GoError) × σ
  Update : String → models.Subscription → σ → Option GoError × σ
  Delete : String → σ → Option GoError × σ

end helpers

/-- What a handler reads from `*gin.Context`: the path parameters, and the outcome
of `ctx.BindJSON` into each of the two target types the handlers bind. -/
structure Context where
  params : List (String × String)
  query : List (String × String)
  bindIdentifiers : Except GoError models.RequestIdentifiers
  bindSubscription : Except GoError models.Subscription

/-- The call `ctx.Param(key)`: the value of the first path parameter named `key`,
the empty string when there is none. -/
def Context.Param (ctx : Context) (key : String) : String :=
  (ctx.params.lookup key).getD ""

/-- Functions the handlers call from other packages: `GetPaging` of the embedded
base handler, `uuid.Parse`, and `models.NewSubscription`. -/
structure Deps where
  GetPaging : Context → Int × Int
  uuidParse : String → UUID
  NewSubscription : UUID → String → UUID → UUID → models.Subscription

/-- The observable course of one request: the helper's store, the helper calls
made so far, and the responses written so far, both oldest first. -/
structure Trace (σ : Type) where
  store : σ
  calls : List helpers.CallRecord
  out : List Response

/-- The trace at the moment the router hands a request to a handler. -/
def Trace.init {σ : Type} (store : σ) : Trace σ :=
  { store := store, calls := [], out := [] }

namespace handlers

variable {σ : Type}

/-- The writer `s.UserError(ctx, msg, obj)` of the base handler. -/
def UserError (t : Trace σ) (msg : String) (obj : Obj) : Trace σ :=
  { t with out := t.out ++ [Response.UserError msg obj] }

/-- The writer `s.ServerError(ctx, err, obj)` of the base handler. -/
def ServerError (t : Trace σ) (err : GoError) (obj : Obj) : Trace σ :=
  { t with out := t.out ++ [Response.ServerError err obj] }

/-- The writer `s.Success(ctx, obj)` of the base handler. -/
def Success (t : Trace σ) (obj : Obj) : Trace σ :=
  { t with out := t.out ++ [Response.Success obj] }

/-- Record a helper invocation and the store it left behind. -/
def logCall (t : Trace σ) (c : helpers.Call) (err : Option GoError) (store : σ) : Trace σ :=
  { t with store := store, calls := t.calls ++ [{ call := c, err := err }] }

/-- New adds the given subscription entry to the database. -/
def Subscription.New (d : Deps) (s : helpers.SubscriptionI σ) (ctx : Context)
    (t : Trace σ) : Trace σ :=
  match ctx.bindIdentifiers with
  | .error err => UserError t "Error: unable to parse json" (Obj.err err)
  | .ok json =>
    let subscription := d.NewSubscription json.UserID json.Frequency json.RoasterID json.ItemID
    let r := s.Insert subscription t.store
    let t1 := logCall t (helpers.Call.Insert subscription) r.1 r.2
    match r.1 with
    | some err => ServerError t1 err (Obj.ids json)
    | none => Success t1 (Obj.sub subscription)

/-- View returns the subscription entry with the given subscriptionId. -/
def Subscription.View (s : helpers.SubscriptionI σ) (ctx : Context)
    (t : Trace σ) : Trace σ :=
  let id := ctx.Param "subscriptionId"
  let r := s.GetByID id t.store
  let t1 := logCall t (helpers.Call.GetByID id) r.1.2 r.2
  match r.1.2 with
  | some err => ServerError t1 err Obj.nil
  | none =>
    match r.1.1 with
    | none => UserError t1 "Error: Subscription does not exist" (Obj.str id)
    | some subscription => Success t1 (Obj.sub subscription)

/-- ViewAll returns a list of subscriptions with offset and limit determining the
entries and amount. -/
def Subscription.ViewAll (d : Deps) (s : helpers.SubscriptionI σ) (ctx : Context)
    (t : Trace σ) : Trace σ :=
  let p := d.GetPaging ctx
  let r := s.GetAll p.1 p.2 t.store
  let t1 := logCall t (helpers.Call.GetAll p.1 p.2) r.1.2 r.2
  match r.1.2 with
  | some err => ServerError t1 err Obj.nil
  | none => Success t1 (Obj.subs r.1.1)

/-- ViewByRoaster returns a list of subscriptions with the given roasterId, with the
offset and limit determining the entries and amount. -/
def Subscription.ViewByRoaster (d : Deps) (s : helpers.SubscriptionI σ) (ctx : Context)
    (t : Trace σ) : Trace σ :=
  let roasterID := ctx.Param "roasterId"
  let p := d.GetPaging ctx
  let r := s.GetByRoaster roasterID p.1 p.2 t.store
  let t1 := logCall t (helpers.Call.GetByRoaster roasterID p.1 p.2) r.1.2 r.2
  match r.1.2 with
  | some err => ServerError t1 err Obj.nil
  | none => Success t1 (Obj.subs r.1.1)

/-- ViewByUser: the source comment reads "returns a list of subscriptions with the
given roasterId, with the offset and limit determining the entries and amount"; the
body reads the path parameter "userId" and queries by user. -/
def Subscription.ViewByUser (d : Deps) (s : helpers.SubscriptionI σ) (ctx : Context)
    (t : Trace σ) : Trace σ :=
  let userID := ctx.Param "userId"
  let p := d.GetPaging ctx
  let r := s.GetByUser userID p.1 p.2 t.store
  let t1 := logCall t (helpers.Call.GetByUser userID p.1 p.2) r.1.2 r.2
  match r.1.2 with
  | some err => ServerError t1 err Obj.nil
  | none => Success t1 (Obj.subs r.1.1)

/-- Update overwrites a subscription with the given subscriptionId. -/
def Subscription.Update (d : Deps) (s : helpers.SubscriptionI σ) (ctx : Context)
    (t : Trace σ) : Trace σ :=
  let id := ctx.Param "subscriptionId"
  match ctx.bindSubscription with
  | .error err => UserError t "Error: unable to parse json" (Obj.err err)
  | .ok body =>
    let json := { body with ID := d.uuidParse id }
    let r := s.Update id json t.store
    let t1 := logCall t (helpers.Call.Update id json) r.1 r.2
    match r.1 with
    | some err => ServerError t1 err (Obj.sub json)
    | none => Success t1 (Obj.sub json)

/-- Delete removes a subscription with the given subscriptionId. -/
def Subscription.Delete (s : helpers.SubscriptionI σ) (ctx : Context)
    (t : Trace σ) : Trace σ :=
  let id := ctx.Param "subscriptionId"
  let r := s.Delete id t.store
  let t1 := logCall t (helpers.Call.Delete id) r.1 r.2
  match r.1 with
  | some err => ServerError t1 err (Obj.str id)
  | none => Success t1 Obj.nil

/-- The request methods of the handler interface `SubscriptionI`. -/
inductive Method where
  | New
  | ViewAll
  | View
  | ViewByRoaster
  | ViewByUser
  | Update
  | Delete
deriving DecidableEq

/-- Run the handler a method names on a fresh request. -/
def serve (d : Deps) (s : helpers.SubscriptionI σ) (m : Method) (ctx : Context)
    (store : σ) : Trace σ :=
  match m with
  | .New => Subscription.New d s ctx (Trace.init store)
  | .ViewAll => Subscription.ViewAll d s ctx (Trace.init store)
  | .View => Subscription.View s ctx (Trace.init store)
  | .ViewByRoaster => Subscription.ViewByRoaster d s ctx (Trace.init store)
  | .ViewByUser => Subscription.ViewByUser d s ctx (Trace.init store)
  | .Update => Subscription.Update d s ctx (Trace.init store)
  | .Delete => Subscription.Delete s ctx (Trace.init store)

end handlers

/-! ## Collaborators that are not among the sources -/

namespace uuid

/-- The value of one hexadecimal digit, `none` for any other character. -/
def xvalue (c : Char) : Option Nat :=
  if 48 ≤ c.toNat ∧ c.toNat ≤ 57 then some (c.toNat - 48)
  else if 97 ≤ c.toNat ∧ c.toNat ≤ 102 then some (c.toNat - 87)
  else if 65 ≤ c.toNat ∧ c.toNat ≤ 70 then some (c.toNat - 55)
  else none

/-- Decode pairs of hexadecimal digits into bytes. -/
def hexBytes : List Char → Option (List Nat)
  | [] => some []
  | [_] => none
  | a :: b :: rest =>
    match xvalue a, xvalue b, hexBytes rest with
    | some x, some y, some bs => some ((16 * x + y) :: bs)
    | _, _, _ => none

/-- The library function `uuid.Parse` of pborman/uuid: text of length 45 must
start with "urn:uuid:" in any letter case, which is then dropped; what remains must
be the 36 characters xxxxxxxx-xxxx-xxxx-xxxx-xxxxxxxxxxxx and gives the sixteen
bytes; any other text gives nil.  The handlers take the parser as a parameter; this
instance is the one concrete requests are evaluated with. -/
def Parse (s : String) : UUID :=
  let cs := s.toList
  if cs.length = 45 ∧ (cs.take 9).map Char.toLower ≠ "urn:uuid:".toList then none
  else if cs.length ≠ 45 ∧ cs.length ≠ 36 then none
  else
    let cs := if cs.length = 45 then cs.drop 9 else cs
    if cs.get? 8 ≠ some '-' ∨ cs.get? 13 ≠ some '-' ∨ cs.get? 18 ≠ some '-'
        ∨ cs.get? 23 ≠ some '-' then none
    else
      hexBytes (cs.take 8 ++ (cs.drop 9).take 4 ++ (cs.drop 14).take 4 ++ (cs.drop 19).take 4
        ++ (cs.drop 24).take 12)

end uuid

/-- An identifier is empty when it is the nil slice or has no bytes. -/
def UUID.isEmpty (u : UUID) : Bool :=
  match u with
  | none => true
  | some bs => bs.isEmpty

/-- The error a rejected record is refused with. -/
def ValidationError : GoError := "ValidationError"

namespace models

/-- Modelled from the spec: the constructor `models.NewSubscription` is not among
the sources.  A subscription is created active and never fulfilled, with the
user, frequency, vendor and item it is given, a fresh identifier, and a next due
time that the insert recomputes before persisting. -/
def NewSubscription (fresh : UUID) (now : Nat) (userID : UUID) (frequency : String)
    (roasterID : UUID) (itemID : UUID) : Subscription :=
  { ID := fresh
    UserID := userID
    RoasterID := roasterID
    ItemID := itemID
    Frequency := frequency
    LastFulfilledAt := none
    NextDueAt := now
    Status := Status.active }

end models

namespace helpers

/-- Modelled from the spec: the implementation of `Insert` behind
`helpers.SubscriptionI` is not among the sources.  Validation on insert rejects an
empty userID, vendorID or itemID and a frequency the policy `nextDue` does not
recognise (the policy's own error is surfaced); on success the next due time is
recomputed through the policy and the record is persisted. -/
def Insert (nextDue : String → Nat → Except GoError Nat) (now : Nat)
    (sub : models.Subscription) (store : List models.Subscription) :
    Option GoError × List models.Subscription :=
  if sub.UserID.isEmpty || sub.RoasterID.isEmpty || sub.ItemID.isEmpty then
    (some ValidationError, store)
  else
    match nextDue sub.Frequency now with
    | .error e => (some e, store)
    | .ok due => (none, store ++ [{ sub with NextDueAt := due }])

/-- A helper whose `Insert` is the one modelled from the spec; its other operations
are those of `s`. -/
def withInsert (s : SubscriptionI (List models.Subscription))
    (nextDue : String → Nat → Except GoError Nat) (now : Nat) :
    SubscriptionI (List models.Subscription) :=
  { s with Insert := Insert nextDue now }

end helpers

/-- The collaborators `d` with `models.NewSubscription` as modelled from the spec. -/
def Deps.withNewSubscription (d : Deps) (fresh : UUID) (now : Nat) : Deps :=
  { d with NewSubscription := models.NewSubscription fresh now }

/-! ## Concrete requests -/

namespace demo

/-- A table-backed helper that never fails: records are kept in a list, queries
filter by the parsed identifier and page with offset and limit, an update
replaces the records stored under the identifier, a delete removes them. -/
def helper : helpers.SubscriptionI (List models.Subscription) where
  Insert := fun sub store => (none, store ++ [sub])
  GetByID := fun id store => ((store.find? (fun x => x.ID = uuid.Parse id), none), store)
  GetAll := fun offset limit store => (((store.drop offset.toNat).take limit.toNat, none), store)
  GetByRoaster := fun id offset limit store =>
    ((((store.filter (fun x => x.RoasterID = uuid.Parse id)).drop offset.toNat).take limit.toNat,
      none), store)
  GetByUser := fun id offset limit store =>
    ((((store.filter (fun x => x.UserID = uuid.Parse id)).drop offset.toNat).take limit.toNat,
      none), store)
  Update := fun id sub store =>
    (none, store.map (fun x => if x.ID = uuid.Parse id ∧ x.ID ≠ none then sub else x))
  Delete := fun id store => (none, store.filter (fun x => x.ID ≠ uuid.Parse id))

/-- The weekly-only frequency policy: seven days, in seconds, after `fromTime`. -/
def nextDue (frequency : String) (fromTime : Nat) : Except GoError Nat :=
  if frequency = "weekly" then .ok (fromTime + 604800) else .error "InvalidFrequency"

/-- Collaborators for concrete requests: a first page of twenty, the canonical
identifier parser, and the constructor modelled from the spec. -/
def deps : Deps where
  GetPaging := fun _ => (0, 20)
  uuidParse := uuid.Parse
  NewSubscription := models.NewSubscription (uuid.Parse "99999999-9999-9999-9999-999999999999") 0

def userA : String := "11111111-1111-1111-1111-111111111111"

def roasterA : String := "22222222-2222-2222-2222-222222222222"

def roasterB : String := "33333333-3333-3333-3333-333333333333"

def itemA : String := "44444444-4444-4444-4444-444444444444"

def subA : String := "55555555-5555-5555-5555-555555555555"

/-- A stored subscription of user A with roaster B. -/
def record : models.Subscription :=
  { ID := uuid.Parse subA
    UserID := uuid.Parse userA
    RoasterID := uuid.Parse roasterB
    ItemID := uuid.Parse itemA
    Frequency := "weekly"
    LastFulfilledAt := none
    NextDueAt := 604800
    Status := models.Status.active }

/-- A request body naming user A, roaster A and item A, weekly. -/
def identifiers : models.RequestIdentifiers :=
  { UserID := uuid.Parse userA
    Frequency := "weekly"
    RoasterID := uuid.Parse roasterA
    ItemID := uuid.Parse itemA }

/-- A request with the given path parameters whose body binds to `identifiers`
and, as a subscription, to `record`. -/
def request (params : List (String × String)) : Context :=
  { params := params
    query := []
    bindIdentifiers := .ok identifiers
    bindSubscription := .ok record }

/-- A request with the given path parameters whose body is not JSON. -/
def badBody (params : List (String × String)) : Context :=
  { params := params
    query := []
    bindIdentifiers := .error "invalid character"
    bindSubscription := .error "invalid character" }

end demo

/-! ## Theorems -/

open handlers

/-- C1: when `GetByID` returns no error, `View` answers Success exactly when the
returned pointer is not nil, and the Success then carries exactly the returned
subscription; on a nil result it answers the user error "Error: Subscription does
not exist" and writes neither a Success nor a server error. -/
theorem View_success_iff_found {σ : Type} (s : helpers.SubscriptionI σ) (ctx : Context)
    (store : σ) (hok : (s.GetByID (ctx.Param "subscriptionId") store).1.2 = none) :
    ((∃ data, Response.Success data ∈ (Subscription.View s ctx (Trace.init store)).out) ↔
        (s.GetByID (ctx.Param "subscriptionId") store).1.1 ≠ none) ∧
      (∀ sub, (s.GetByID (ctx.Param "subscriptionId") store).1.1 = some sub →
        (Subscription.View s ctx (Trace.init store)).out = [Response.Success (Obj.sub sub)]) ∧
      ((s.GetByID (ctx.Param "subscriptionId") store).1.1 = none →
        (Subscription.View s ctx (Trace.init store)).out =
            [Response.UserError "Error: Subscription does not exist"
              (Obj.str (ctx.Param "subscriptionId"))] ∧
          (∀ data, Response.Success data ∉ (Subscription.View s ctx (Trace.init store)).out) ∧
          (∀ e o, Response.ServerError e o ∉
            (Subscription.View s ctx (Trace.init store)).out)) := by
  cases hsub : (s.GetByID (ctx.Param "subscriptionId") store).1.1 <;>
    simp [Subscription.View, Trace.init, logCall, UserError, Success, hok, hsub]

/-- C1 at a concrete request: the stored record is found and returned. -/
theorem View_success_iff_found_witness :
    (demo.helper.GetByID ((demo.request [("subscriptionId", demo.subA)]).Param "subscriptionId")
        [demo.record]).1.2 = none ∧
      (Subscription.View demo.helper (demo.request [("subscriptionId", demo.subA)])
        (Trace.init [demo.record])).out = [Response.Success (Obj.sub demo.record)] :=
  ⟨by decide,
    (View_success_iff_found demo.helper (demo.request [("subscriptionId", demo.subA)])
      [demo.record] (by decide)).2.1 demo.record (by decide)⟩

/-- C2: for an Update request whose body parses, the record handed to the helper's
`Update` and the record in the Success response are the body with its ID replaced
by `uuid.Parse` of the subscriptionId path parameter: the ID is the parsed path
identifier whatever the body carried, and every other field is the body's. -/
theorem Update_overwrites_id_only {σ : Type} (d : Deps) (s : helpers.SubscriptionI σ)
    (ctx : Context) (store : σ) (body : models.Subscription)
    (hparse : ctx.bindSubscription = .ok body) :
    ∃ json : models.Subscription,
      json.ID = d.uuidParse (ctx.Param "subscriptionId") ∧
      json.UserID = body.UserID ∧ json.RoasterID = body.RoasterID ∧
      json.ItemID = body.ItemID ∧ json.Frequency = body.Frequency ∧
      json.LastFulfilledAt = body.LastFulfilledAt ∧ json.NextDueAt = body.NextDueAt ∧
      json.Status = body.Status ∧
      (Subscription.Update d s ctx (Trace.init store)).calls =
        [{ call := helpers.Call.Update (ctx.Param "subscriptionId") json,
           err := (s.Update (ctx.Param "subscriptionId") json store).1 }] ∧
      ((s.Update (ctx.Param "subscriptionId") json store).1 = none →
        (Subscription.Update d s ctx (Trace.init store)).out =
          [Response.Success (Obj.sub json)]) := by
  refine ⟨{ body with ID := d.uuidParse (ctx.Param "subscriptionId") },
    rfl, rfl, rfl, rfl, rfl, rfl, rfl, rfl, ?_, ?_⟩
  · simp only [Subscription.Update, hparse]
    split <;> simp [Trace.init, logCall, ServerError, Success]
  · intro h
    simp [Subscription.Update, hparse, h, Trace.init, logCall, Success]

/-- C2 at a concrete request: the body carries identifier 55.., the path names
roaster A's identifier text, and the record updated and returned has the latter. -/
theorem Update_overwrites_id_only_witness :
    (demo.request [("subscriptionId", demo.roasterA)]).bindSubscription = .ok demo.record ∧
      ∃ json : models.Subscription,
        json.ID = demo.deps.uuidParse
          ((demo.request [("subscriptionId", demo.roasterA)]).Param "subscriptionId") ∧
        json.UserID = demo.record.UserID ∧ json.RoasterID = demo.record.RoasterID ∧
        json.ItemID = demo.record.ItemID ∧ json.Frequency = demo.record.Frequency ∧
        json.LastFulfilledAt = demo.record.LastFulfilledAt ∧
        json.NextDueAt = demo.record.NextDueAt ∧ json.Status = demo.record.Status ∧
        (Subscription.Update demo.deps demo.helper
            (demo.request [("subscriptionId", demo.roasterA)]) (Trace.init [demo.record])).calls =
          [{ call := helpers.Call.Update
                ((demo.request [("subscriptionId", demo.roasterA)]).Param "subscriptionId") json,
             err := (demo.helper.Update
                ((demo.request [("subscriptionId", demo.roasterA)]).Param "subscriptionId") json
                [demo.record]).1 }] ∧
        ((demo.helper.Update
              ((demo.request [("subscriptionId", demo.roasterA)]).Param "subscriptionId") json
              [demo.record]).1 = none →
          (Subscription.Update demo.deps demo.helper
              (demo.request [("subscriptionId", demo.roasterA)]) (Trace.init [demo.record])).out =
            [Response.Success (Obj.sub json)]) :=
  ⟨rfl, Update_overwrites_id_only demo.deps demo.helper
    (demo.request [("subscriptionId", demo.roasterA)]) [demo.record] demo.record rfl⟩

/-- C3 fails on the code: the path parameter "not-a-uuid" is no identifier, the body
parses, and the handler still invokes the helper's `Update`, with the nil ID, and
answers Success. -/
theorem Update_invalid_id_counterexample :
    demo.deps.uuidParse
        ((demo.request [("subscriptionId", "not-a-uuid")]).Param "subscriptionId") = none ∧
      (Subscription.Update demo.deps demo.helper (demo.request [("subscriptionId", "not-a-uuid")])
          (Trace.init [demo.record])).calls =
        [{ call := helpers.Call.Update "not-a-uuid" { demo.record with ID := none },
           err := none }] ∧
      (Subscription.Update demo.deps demo.helper (demo.request [("subscriptionId", "not-a-uuid")])
          (Trace.init [demo.record])).out =
        [Response.Success (Obj.sub { demo.record with ID := none })] := by
  decide

/-- C3 as amended: for an Update request whose body parses and whose subscriptionId
path parameter is no identifier, the handler does not validate the identifier: it
invokes the helper's `Update` once with the raw path text and the body whose ID is
nil, answers Success with that record when the helper returns no error and a server
error carrying the helper's error otherwise, and writes no user error. -/
theorem Update_invalid_id_delegates {σ : Type} (d : Deps) (s : helpers.SubscriptionI σ)
    (ctx : Context) (store : σ) (body : models.Subscription)
    (hparse : ctx.bindSubscription = .ok body)
    (hbad : d.uuidParse (ctx.Param "subscriptionId") = none) :
    (Subscription.Update d s ctx (Trace.init store)).calls =
        [{ call := helpers.Call.Update (ctx.Param "subscriptionId") { body with ID := none },
           err := (s.Update (ctx.Param "subscriptionId") { body with ID := none } store).1 }] ∧
      (Subscription.Update d s ctx (Trace.init store)).store =
        (s.Update (ctx.Param "subscriptionId") { body with ID := none } store).2 ∧
      ((s.Update (ctx.Param "subscriptionId") { body with ID := none } store).1 = none →
        (Subscription.Update d s ctx (Trace.init store)).out =
          [Response.Success (Obj.sub { body with ID := none })]) ∧
      (∀ e, (s.Update (ctx.Param "subscriptionId") { body with ID := none } store).1 = some e →
        (Subscription.Update d s ctx (Trace.init store)).out =
          [Response.ServerError e (Obj.sub { body with ID := none })]) ∧
      (∀ msg o, Response.UserError msg o ∉
        (Subscription.Update d s ctx (Trace.init store)).out) := by
  cases herr : (s.Update (ctx.Param "subscriptionId") { body with ID := none } store).1 <;>
    simp [Subscription.Update, hparse, hbad, herr, Trace.init, logCall, ServerError, Success]

/-- C3 as amended, at the request of the counterexample. -/
theorem Update_invalid_id_delegates_witness :
    (demo.request [("subscriptionId", "not-a-uuid")]).bindSubscription = .ok demo.record ∧
      demo.deps.uuidParse
        ((demo.request [("subscriptionId", "not-a-uuid")]).Param "subscriptionId") = none ∧
      (Subscription.Update demo.deps demo.helper (demo.request [("subscriptionId", "not-a-uuid")])
          (Trace.init [demo.record])).store = [demo.record] :=
  ⟨rfl, by decide,
    (Update_invalid_id_delegates demo.deps demo.helper
      (demo.request [("subscriptionId", "not-a-uuid")]) [demo.record] demo.record rfl
      (by decide)).2.1.trans (by decide)⟩

/-- C4: with the insert validation and the constructor modelled from the spec, a New
request whose parsed body has an empty userID, vendor (roaster) ID or itemID is
rejected: the store is left as it was, and the one response is the server error
carrying the validation error, not a Success. -/
theorem New_rejects_empty_identifiers (d : Deps)
    (s : helpers.SubscriptionI (List models.Subscription))
    (nextDue : String → Nat → Except GoError Nat) (fresh : UUID) (created now : Nat)
    (ctx : Context) (store : List models.Subscription) (json : models.RequestIdentifiers)
    (hparse : ctx.bindIdentifiers = .ok json)
    (hempty : json.UserID.isEmpty = true ∨ json.RoasterID.isEmpty = true ∨
      json.ItemID.isEmpty = true) :
    (Subscription.New (d.withNewSubscription fresh created) (helpers.withInsert s nextDue now)
        ctx (Trace.init store)).store = store ∧
      (Subscription.New (d.withNewSubscription fresh created) (helpers.withInsert s nextDue now)
        ctx (Trace.init store)).out = [Response.ServerError ValidationError (Obj.ids json)] ∧
      (∀ data, Response.Success data ∉
        (Subscription.New (d.withNewSubscription fresh created)
          (helpers.withInsert s nextDue now) ctx (Trace.init store)).out) := by
  have hins : helpers.Insert nextDue now
      (models.NewSubscription fresh created json.UserID json.Frequency json.RoasterID
        json.ItemID) store = (some ValidationError, store) := by
    have hor : (json.UserID.isEmpty || json.RoasterID.isEmpty || json.ItemID.isEmpty) = true := by
      rcases hempty with h | h | h <;> simp [h]
    simp [helpers.Insert, models.NewSubscription, hor]
  simp [Subscription.New, hparse, Deps.withNewSubscription, helpers.withInsert, hins,
    Trace.init, logCall, ServerError]

/-- C4 at a concrete request: a body without a user identifier is not persisted. -/
theorem New_rejects_empty_identifiers_witness :
    (({ demo.request [] with
          bindIdentifiers := .ok { demo.identifiers with UserID := none } } : Context).bindIdentifiers
        = .ok { demo.identifiers with UserID := none }) ∧
      (Subscription.New (demo.deps.withNewSubscription (uuid.Parse demo.subA) 0)
        (helpers.withInsert demo.helper demo.nextDue 0)
        { demo.request [] with bindIdentifiers := .ok { demo.identifiers with UserID := none } }
        (Trace.init [demo.record])).store = [demo.record] :=
  ⟨rfl, (New_rejects_empty_identifiers demo.deps demo.helper demo.nextDue (uuid.Parse demo.subA)
    0 0 { demo.request [] with bindIdentifiers := .ok { demo.identifiers with UserID := none } }
    [demo.record] { demo.identifiers with UserID := none } rfl (Or.inl rfl)).1⟩

/-- C5: a New or an Update request whose body fails to parse is answered with the
user error "Error: unable to parse json" carrying the parse error, no helper
operation is invoked, and the store is unchanged. -/
theorem parse_failure_fails_fast {σ : Type} (d : Deps) (s : helpers.SubscriptionI σ)
    (ctx : Context) (store : σ) :
    (∀ err, ctx.bindIdentifiers = .error err →
        Subscription.New d s ctx (Trace.init store) =
          { store := store, calls := [],
            out := [Response.UserError "Error: unable to parse json" (Obj.err err)] }) ∧
      (∀ err, ctx.bindSubscription = .error err →
        Subscription.Update d s ctx (Trace.init store) =
          { store := store, calls := [],
            out := [Response.UserError "Error: unable to parse json" (Obj.err err)] }) := by
  constructor <;> intro err h <;>
    simp [Subscription.New, Subscription.Update, h, Trace.init, UserError]

/-- C5 at a concrete request: a body that is not JSON leaves the stored record alone. -/
theorem parse_failure_fails_fast_witness :
    Subscription.Update demo.deps demo.helper (demo.badBody [("subscriptionId", demo.subA)])
        (Trace.init [demo.record]) =
      { store := [demo.record], calls := [],
        out := [Response.UserError "Error: unable to parse json" (Obj.err "invalid character")] } :=
  (parse_failure_fails_fast demo.deps demo.helper (demo.badBody [("subscriptionId", demo.subA)])
    [demo.record]).2 "invalid character" rfl

/-- C6: for a New request whose body parses, the helper's `Insert` is invoked exactly
once, with the subscription `models.NewSubscription` builds from the body's UserID,
Frequency, RoasterID and ItemID in that order; the store the request leaves behind
is the one that single `Insert` produced; when `Insert` returns no error the one
response is Success carrying that same subscription, and when it returns an error
the one response is the server error carrying it. -/
theorem New_inserts_constructed {σ : Type} (d : Deps) (s : helpers.SubscriptionI σ)
    (ctx : Context) (store : σ) (json : models.RequestIdentifiers)
    (hparse : ctx.bindIdentifiers = .ok json) :
    (Subscription.New d s ctx (Trace.init store)).calls =
        [{ call := helpers.Call.Insert
              (d.NewSubscription json.UserID json.Frequency json.RoasterID json.ItemID),
           err := (s.Insert
              (d.NewSubscription json.UserID json.Frequency json.RoasterID json.ItemID)
              store).1 }] ∧
      (Subscription.New d s ctx (Trace.init store)).store =
        (s.Insert (d.NewSubscription json.UserID json.Frequency json.RoasterID json.ItemID)
          store).2 ∧
      ((s.Insert (d.NewSubscription json.UserID json.Frequency json.RoasterID json.ItemID)
          store).1 = none →
        (Subscription.New d s ctx (Trace.init store)).out =
          [Response.Success (Obj.sub
            (d.NewSubscription json.UserID json.Frequency json.RoasterID json.ItemID))]) ∧
      (∀ e,
        (s.Insert (d.NewSubscription json.UserID json.Frequency json.RoasterID json.ItemID)
          store).1 = some e →
        (Subscription.New d s ctx (Trace.init store)).out =
          [Response.ServerError e (Obj.ids json)]) := by
  cases herr : (s.Insert
      (d.NewSubscription json.UserID json.Frequency json.RoasterID json.ItemID) store).1 <;>
    simp [Subscription.New, hparse, herr, Trace.init, logCall, ServerError, Success]

/-- C6 at a concrete request: the subscription inserted has the body's user, roaster
and item in their own fields, and it is what the store holds afterwards. -/
theorem New_inserts_constructed_witness :
    (demo.request []).bindIdentifiers = .ok demo.identifiers ∧
      (Subscription.New demo.deps demo.helper (demo.request []) (Trace.init [])).calls =
        [{ call := helpers.Call.Insert
              { ID := uuid.Parse "99999999-9999-9999-9999-999999999999"
                UserID := uuid.Parse demo.userA
                RoasterID := uuid.Parse demo.roasterA
                ItemID := uuid.Parse demo.itemA
                Frequency := "weekly"
                LastFulfilledAt := none
                NextDueAt := 0
                Status := models.Status.active },
           err := none }] ∧
      (Subscription.New demo.deps demo.helper (demo.request []) (Trace.init [])).store =
        [{ ID := uuid.Parse "99999999-9999-9999-9999-999999999999"
           UserID := uuid.Parse demo.userA
           RoasterID := uuid.Parse demo.roasterA
           ItemID := uuid.Parse demo.itemA
           Frequency := "weekly"
           LastFulfilledAt := none
           NextDueAt := 0
           Status := models.Status.active }] :=
  ⟨rfl,
    (New_inserts_constructed demo.deps demo.helper (demo.request []) []
      demo.identifiers rfl).1.trans (by decide),
    (New_inserts_constructed demo.deps demo.helper (demo.request []) []
      demo.identifiers rfl).2.1.trans (by decide)⟩

/-- C7: each of ViewAll, ViewByRoaster and ViewByUser invokes its helper query once,
with the offset and limit `GetPaging` returned (and, for the filtered two, the path
parameter as read), and when the query returns no error the response is Success
carrying the returned list as it is; an empty list gives a Success with the empty
list. -/
theorem list_handlers_pass_through {σ : Type} (d : Deps) (s : helpers.SubscriptionI σ)
    (ctx : Context) (store : σ) :
    ((Subscription.ViewAll d s ctx (Trace.init store)).calls =
          [{ call := helpers.Call.GetAll (d.GetPaging ctx).1 (d.GetPaging ctx).2,
             err := (s.GetAll (d.GetPaging ctx).1 (d.GetPaging ctx).2 store).1.2 }] ∧
        (∀ l, (s.GetAll (d.GetPaging ctx).1 (d.GetPaging ctx).2 store).1 = (l, none) →
          (Subscription.ViewAll d s ctx (Trace.init store)).out =
            [Response.Success (Obj.subs l)])) ∧
      ((Subscription.ViewByRoaster d s ctx (Trace.init store)).calls =
          [{ call := helpers.Call.GetByRoaster (ctx.Param "roasterId") (d.GetPaging ctx).1
                (d.GetPaging ctx).2,
             err := (s.GetByRoaster (ctx.Param "roasterId") (d.GetPaging ctx).1
                (d.GetPaging ctx).2 store).1.2 }] ∧
        (∀ l, (s.GetByRoaster (ctx.Param "roasterId") (d.GetPaging ctx).1
              (d.GetPaging ctx).2 store).1 = (l, none) →
          (Subscription.ViewByRoaster d s ctx (Trace.init store)).out =
            [Response.Success (Obj.subs l)])) ∧
      ((Subscription.ViewByUser d s ctx (Trace.init store)).calls =
          [{ call := helpers.Call.GetByUser (ctx.Param "userId") (d.GetPaging ctx).1
                (d.GetPaging ctx).2,
             err := (s.GetByUser (ctx.Param "userId") (d.GetPaging ctx).1
                (d.GetPaging ctx).2 store).1.2 }] ∧
        (∀ l, (s.GetByUser (ctx.Param "userId") (d.GetPaging ctx).1
              (d.GetPaging ctx).2 store).1 = (l, none) →
          (Subscription.ViewByUser d s ctx (Trace.init store)).out =
            [Response.Success (Obj.subs l)])) := by
  refine ⟨⟨?_, ?_⟩, ⟨?_, ?_⟩, ⟨?_, ?_⟩⟩
  · simp only [Subscription.ViewAll]
    split <;> simp [Trace.init, logCall, ServerError, Success]
  · intro l h
    simp [Subscription.ViewAll, h, Trace.init, logCall, Success]
  · simp only [Subscription.ViewByRoaster]
    split <;> simp [Trace.init, logCall, ServerError, Success]
  · intro l h
    simp [Subscription.ViewByRoaster, h, Trace.init, logCall, Success]
  · simp only [Subscription.ViewByUser]
    split <;> simp [Trace.init, logCall, ServerError, Success]
  · intro l h
    simp [Subscription.ViewByUser, h, Trace.init, logCall, Success]

/-- C7 at a concrete request: over an empty store ViewAll answers Success with the
empty list. -/
theorem list_handlers_pass_through_witness :
    (Subscription.ViewAll demo.deps demo.helper (demo.request []) (Trace.init [])).out =
      [Response.Success (Obj.subs [])] :=
  (list_handlers_pass_through demo.deps demo.helper (demo.request []) []).1.2 [] (by decide)

/-- C8 fails on the code: on a request whose "roasterId" path parameter names roaster
A and whose "userId" names user A, ViewByUser queries `GetByUser` with user A's
identifier, and the list it returns holds a subscription of roaster B. -/
theorem ViewByUser_roasterId_counterexample :
    (demo.request [("roasterId", demo.roasterA), ("userId", demo.userA)]).Param "roasterId" =
        demo.roasterA ∧
      (Subscription.ViewByUser demo.deps demo.helper
          (demo.request [("roasterId", demo.roasterA), ("userId", demo.userA)])
          (Trace.init [demo.record])).calls =
        [{ call := helpers.Call.GetByUser demo.userA 0 20, err := none }] ∧
      demo.userA ≠ demo.roasterA ∧
      (Subscription.ViewByUser demo.deps demo.helper
          (demo.request [("roasterId", demo.roasterA), ("userId", demo.userA)])
          (Trace.init [demo.record])).out = [Response.Success (Obj.subs [demo.record])] ∧
      demo.record.RoasterID ≠ uuid.Parse demo.roasterA := by
  decide

/-- C8 as amended: ViewByUser selects by the request's "userId" path parameter: it
invokes `GetByUser` once with that parameter and the offset and limit of `GetPaging`,
and answers Success with the returned list when the query returns no error. -/
theorem ViewByUser_selects_by_userId {σ : Type} (d : Deps) (s : helpers.SubscriptionI σ)
    (ctx : Context) (store : σ) :
    (Subscription.ViewByUser d s ctx (Trace.init store)).calls =
        [{ call := helpers.Call.GetByUser (ctx.Param "userId") (d.GetPaging ctx).1
              (d.GetPaging ctx).2,
           err := (s.GetByUser (ctx.Param "userId") (d.GetPaging ctx).1 (d.GetPaging ctx).2
              store).1.2 }] ∧
      ((s.GetByUser (ctx.Param "userId") (d.GetPaging ctx).1 (d.GetPaging ctx).2
            store).1.2 = none →
        (Subscription.ViewByUser d s ctx (Trace.init store)).out =
          [Response.Success (Obj.subs (s.GetByUser (ctx.Param "userId") (d.GetPaging ctx).1
            (d.GetPaging ctx).2 store).1.1)]) := by
  cases herr : (s.GetByUser (ctx.Param "userId") (d.GetPaging ctx).1 (d.GetPaging ctx).2
      store).1.2 <;>
    simp [Subscription.ViewByUser, herr, Trace.init, logCall, ServerError, Success]

/-- C8 as amended, at the request of the counterexample. -/
theorem ViewByUser_selects_by_userId_witness :
    (Subscription.ViewByUser demo.deps demo.helper
        (demo.request [("roasterId", demo.roasterA), ("userId", demo.userA)])
        (Trace.init [demo.record])).out = [Response.Success (Obj.subs [demo.record])] :=
  ((ViewByUser_selects_by_userId demo.deps demo.helper
    (demo.request [("roasterId", demo.roasterA), ("userId", demo.userA)]) [demo.record]).2
      (by decide)).trans (by decide)

/-- C10: each of the seven handlers, on every request and for every helper, invokes
the helper at most once and writes exactly one response; that response is a server
error carrying `e` exactly when a helper operation was invoked and returned the
error `e`. -/
theorem serve_one_call_one_response {σ : Type} (d : Deps) (s : helpers.SubscriptionI σ)
    (m : Method) (ctx : Context) (store : σ) :
    (serve d s m ctx store).calls.length ≤ 1 ∧
      (∃ r, (serve d s m ctx store).out = [r]) ∧
      (∀ e, (∃ o, Response.ServerError e o ∈ (serve d s m ctx store).out) ↔
        (∃ c, ({ call := c, err := some e } : helpers.CallRecord) ∈
          (serve d s m ctx store).calls)) := by
  cases m
  · simp only [serve, Subscription.New]
    split
    · simp [Trace.init, UserError]
    · split <;> simp_all [Trace.init, logCall, ServerError, Success]
  · simp only [serve, Subscription.ViewAll]
    split <;> simp_all [Trace.init, logCall, ServerError, Success]
  · simp only [serve, Subscription.View]
    split
    · simp_all [Trace.init, logCall, ServerError]
    · split <;> simp_all [Trace.init, logCall, UserError, Success]
  · simp only [serve, Subscription.ViewByRoaster]
    split <;> simp_all [Trace.init, logCall, ServerError, Success]
  · simp only [serve, Subscription.ViewByUser]
    split <;> simp_all [Trace.init, logCall, ServerError, Success]
  · simp only [serve, Subscription.Update]
    split
    · simp [Trace.init, UserError]
    · split <;> simp_all [Trace.init, logCall, ServerError, Success]
  · simp only [serve, Subscription.Delete]
    split <;> simp_all [Trace.init, logCall, ServerError, Success]

end Covenant
